import Mathlib

/-!
Shallow embedding of `src/build_standalone_validator.py` (mth5-validator),
a linear build pipeline: dependency check, artifact cleanup, PyInstaller
invocation, smoke test, summary.  External effects (imports succeeding,
pip installs succeeding, the packaging tool succeeding, the `--help` exit
status, per-path deletion failures) are modelled as a deterministic
environment; the working directory is a list of top-level entries, each
directory carrying the names of the files inside it.
-/

namespace MTH5Builder

/-! ## safe_print (lines 32-39)

`print` is modelled as an operation that raises `UnicodeEncodeError`
exactly when the message contains a character the console encoding cannot
represent; the encoder is a parameter with the (actual) property that
every ASCII code point is representable.  A message is a list of Unicode
code points. -/

inductive PrintOutcome where
  | ok (printed : List Nat)
  | unicodeError
  deriving Repr, DecidableEq

/-- Python `print(message)`: raises `UnicodeEncodeError` iff some character
is not representable by the console encoder. -/
def tryPrint (encodable : Nat → Bool) (msg : List Nat) : PrintOutcome :=
  if msg.all encodable then .ok msg else .unicodeError

/-- Code point of the checkmark character replaced on line 38. -/
def checkmarkChar : Nat := 10003

/-- Code point of the cross character replaced on line 38. -/
def crossChar : Nat := 10007

/-- Line 38: `message.replace(CHECK, "[OK]").replace(CROSS, "[X]")`. -/
def replaceMark (c : Nat) : List Nat :=
  if c = checkmarkChar then [91, 79, 75, 93]
  else if c = crossChar then [91, 88, 93]
  else [c]

/-- Line 39: encode the message as ASCII with replacement and decode it
back, so every non-ASCII code point becomes a question mark. -/
def asciiReplaceChar (c : Nat) : Nat := if c < 128 then c else 63

/-- The fallback string printed on line 39. -/
def fallbackMessage (msg : List Nat) : List Nat :=
  (msg.flatMap replaceMark).map asciiReplaceChar

/-- Model of `safe_print` (lines 32-39): try to print; on `UnicodeEncodeError`,
replace the markers, ASCII-replace, and print the fallback instead. -/
def safe_print (encodable : Nat → Bool) (msg : List Nat) : PrintOutcome :=
  match tryPrint encodable msg with
  | .ok p => .ok p
  | .unicodeError => tryPrint encodable (fallbackMessage msg)

/-! ## Environment for the pipeline -/

/-- Per-path deletion behaviour of the operating system during cleanup.
`unlinkFails p` : the first low-level removal of path `p` fails
(e.g. a read-only file on Windows).  `retryFails p` : the
chmod-and-retry performed by the `onerror` handler also fails. -/
structure CleanEnv where
  unlinkFails : String → Bool
  retryFails : String → Bool

/-- External, deterministic facts a run of the script depends on. -/
structure Env where
  /-- Whether `import h5py` succeeds. -/
  h5pyImportable : Bool
  /-- after `pip install h5py`, `import h5py` would succeed. -/
  h5pyInstallWorks : Bool
  /-- Whether `import PyInstaller` succeeds. -/
  pyInstallerImportable : Bool
  /-- after `pip install pyinstaller`, `import PyInstaller` succeeds. -/
  pyInstallerInstallWorks : Bool
  /-- Whether `PyInstaller.__main__.run(args)` returns without raising. -/
  buildSucceeds : Bool
  /-- Whether `platform.system()` is `"Windows"`. -/
  isWindows : Bool
  /-- Result of the `os.system` call launching the binary with `--help`. -/
  helpExitCode : Int
  /-- Size `exe_path.stat().st_size` of the produced binary, in bytes. -/
  binarySize : Nat
  clean : CleanEnv

/-! ## check_dependencies (lines 42-71)

The h5py block (47-53): try the import; on `ImportError`, run
`pip install h5py` and fall through — the import is **not** re-attempted
and the outcome never influences the return value.
The PyInstaller block (56-71): try the import; on `ImportError`, run
`pip install pyinstaller`, re-attempt the import, and return `False`
exactly when the re-attempt fails.  The second component records the pip
invocations issued, in order. -/

def check_dependencies (env : Env) : Bool × List String :=
  let installs1 := if env.h5pyImportable then [] else ["pip install h5py"]
  if env.pyInstallerImportable then
    (true, installs1)
  else
    let installs2 := installs1 ++ ["pip install pyinstaller"]
    if env.pyInstallerInstallWorks then (true, installs2)
    else (false, installs2)

/-- What the words of the spec say the checker computes: success iff **each** of
the two libraries is importable, possibly after its one install-and-retry.
(Definition written from the spec sentence, to be compared with
`check_dependencies` above, which is written from the source.) -/
def check_dependencies_specSuccess (env : Env) : Bool :=
  (env.h5pyImportable || env.h5pyInstallWorks)
    && (env.pyInstallerImportable || env.pyInstallerInstallWorks)

/-! ## build_executable argument vector (lines 111-153) -/

/-- Fixed entry-point filename (line 125, checked at line 263). -/
def entryPoint : String := "mth5_validator_standalone.py"

/-- Variable `exe_name` (lines 116-118): base name, `.exe` appended on Windows. -/
def exeName (isWindows : Bool) : String :=
  if isWindows then "mth5-validator.exe" else "mth5-validator"

/-- Replacement of `".exe"` by `""` on the character list: drop every occurrence
of `.exe`, scanning left to right as Python `str.replace` does. -/
def stripExeChars : List Char → List Char
  | '.' :: 'e' :: 'x' :: 'e' :: rest => stripExeChars rest
  | c :: rest => c :: stripExeChars rest
  | [] => []

/-- Line 127: `exe_name.replace(".exe", "")`. -/
def stripExe (s : String) : String := ⟨stripExeChars s.data⟩

/-- The four `--hidden-import` hints (lines 132-135). -/
def hiddenImportArgs : List String :=
  ["--hidden-import=h5py.defs",
   "--hidden-import=h5py.utils",
   "--hidden-import=h5py._proxy",
   "--hidden-import=h5py.h5ac"]

/-- The two `--copy-metadata` directives (lines 136-137). -/
def copyMetadataArgs : List String :=
  ["--copy-metadata=h5py",
   "--copy-metadata=numpy"]

/-- The `--exclude-module` list (lines 139-150). -/
def excludeModuleArgs : List String :=
  ["--exclude-module=matplotlib",
   "--exclude-module=scipy",
   "--exclude-module=pandas",
   "--exclude-module=tkinter",
   "--exclude-module=PyQt5",
   "--exclude-module=PyQt6",
   "--exclude-module=jupyter",
   "--exclude-module=IPython",
   "--exclude-module=pytest",
   "--exclude-module=obspy",
   "--exclude-module=mt_metadata",
   "--exclude-module=mth5"]

/-- The argument vector passed to `PyInstaller.__main__.run` (lines 124-153). -/
def build_args (isWindows : Bool) : List String :=
  [entryPoint,
   "--onefile",
   "--name=" ++ stripExe (exeName isWindows),
   "--console",
   "--clean",
   "--collect-all=h5py"]
  ++ hiddenImportArgs ++ copyMetadataArgs ++ excludeModuleArgs
  ++ ["--log-level=WARN"]

/-! ## Working directory model -/

/-- A top-level entry of the working directory.  For a directory,
`children` are the names of the files inside it (one level is enough:
the script only ever looks at `dist/<exe>` and deletes trees whole). -/
structure Entry where
  name : String
  isDir : Bool
  children : List String := []
  deriving Repr, DecidableEq

/-- The working directory: its top-level entries. -/
abbrev FS := List Entry

/-- Test `os.path.exists(name)` / `Path(name).exists()` for a top-level name. -/
def fsHasTop (fs : FS) (name : String) : Bool :=
  fs.any fun e => e.name = name

/-- Whether `dist/<exe>` exists: a directory named `dist` holds the binary. -/
def distHasBinary (fs : FS) (isWindows : Bool) : Bool :=
  fs.any fun e => e.name = "dist" && e.isDir && e.children.contains (exeName isWindows)

/-! ## clean_build_dirs (lines 74-108)

`shutil.rmtree(dir, onerror=handle_remove_readonly)`: every `OSError`
during the tree walk is routed to the handler instead of raising.  The
handler (lines 79-86), for `os.rmdir` / `os.remove` / `os.unlink`
failures, chmods the path writable and retries the call, swallowing any
second failure with `pass`; for other callbacks it does nothing.  Hence
`rmtree` returns normally for every filesystem state and emits no
warning: the `except` on line 99 is unreachable for per-path deletion
failures, and line 98 prints `Removed <dir>/` regardless.  A file that
resists both the first attempt and the chmod-retry simply survives. -/

/-- One low-level removal inside `rmtree`: the primary call may fail; on
failure the `onerror` handler chmods and retries, and a second failure is
swallowed by `pass`.  `true` iff the path is actually gone afterwards. -/
def removeWithHandler (cenv : CleanEnv) (path : String) : Bool :=
  if cenv.unlinkFails path then !(cenv.retryFails path) else true

/-- Predicate for the children that survive the tree walk of `rmtree`
inside the directory named `n`. -/
def childKeep (cenv : CleanEnv) (n : String) : String → Bool :=
  fun c => !(removeWithHandler cenv (n ++ "/" ++ c))

/-- Model of `shutil.rmtree` with `handle_remove_readonly` on one directory entry:
unlink every child (failures swallowed), then `os.rmdir` the directory,
which succeeds only when it ended up empty and the OS permits it.
`none` = directory fully removed. -/
def rmtreeEntry (cenv : CleanEnv) (e : Entry) : Option Entry :=
  let survivors := e.children.filter (childKeep cenv e.name)
  if survivors.isEmpty && removeWithHandler cenv e.name then none
  else some { e with children := survivors }

/-- Effect of the lines 93-100 loop body for one name of `dirs_to_clean`:
`rmtree` is applied to directory entries with that name; a plain file
with the name makes `rmtree` fail through the handler (silently) and
survives. -/
def cleanDirEntry (cenv : CleanEnv) (dirName : String) (e : Entry) :
    Option Entry :=
  if e.name = dirName && e.isDir then rmtreeEntry cenv e else some e

def cleanDirStep (cenv : CleanEnv) (fs : FS) (dirName : String) : FS :=
  fs.filterMap (cleanDirEntry cenv dirName)

/-- Variable `dirs_to_clean` (line 88). -/
def dirsToClean : List String := ["build", "dist"]

/-- Whether the glob `"*.spec"` matches a top-level name (line 103):
`*` matches any (possibly empty) character sequence, so the pattern
holds exactly of names ending in `.spec`. -/
def matchesSpecGlob (name : String) : Bool :=
  List.isSuffixOf ['.', 's', 'p', 'e', 'c'] name.data

/-- Whether `file.unlink()` (line 105) succeeds: only for a non-directory the OS
lets go; a failure is caught on line 107 and warned. -/
def unlinkSucceeds (cenv : CleanEnv) (e : Entry) : Bool :=
  !e.isDir && !(cenv.unlinkFails e.name)

/-- Model of `clean_build_dirs` (lines 74-108): remove `build` and `dist` trees
(best effort, silent on per-path failure), then unlink every `*.spec`
match, warning on each unlink failure.  Returns the resulting directory
and the warnings printed. -/
def clean_build_dirs (cenv : CleanEnv) (fs : FS) : FS × List String :=
  let fs1 := dirsToClean.foldl (cleanDirStep cenv) fs
  let warns := (fs1.filter fun e =>
      matchesSpecGlob e.name && !(unlinkSucceeds cenv e)).map
    fun e => "Warning: Could not remove " ++ e.name
  let fs2 := fs1.filter fun e =>
      !(matchesSpecGlob e.name && unlinkSucceeds cenv e)
  (fs2, warns)

/-- The two directory passes of the cleaner, composed (the unfolding of
the `foldl` over `dirsToClean`). -/
def cleanDirsPass (cenv : CleanEnv) (fs : FS) : FS :=
  cleanDirStep cenv (cleanDirStep cenv fs "build") "dist"

/-! ## build_executable (lines 111-170) and its filesystem effect -/

/-- Per-entry step of `upsertDirChild`: add `child` to a directory entry
named `d`, leave everything else alone. -/
def upsertEntryFun (d child : String) (e : Entry) : Entry :=
  if e.name = d && e.isDir then
    { e with children :=
        if e.children.contains child then e.children
        else e.children ++ [child] }
  else e

/-- Ensure directory `dirName` holds `child`: PyInstaller (re)creates the
directory if needed and writes the file into it. -/
def upsertDirChild (fs : FS) (dirName child : String) : FS :=
  if fs.any (fun e => e.name = dirName && e.isDir) then
    fs.map (upsertEntryFun dirName child)
  else fs ++ [{ name := dirName, isDir := true, children := [child] }]

/-- Filesystem state after a successful `PyInstaller.__main__.run`:
the binary in `dist/`, a work tree in `build/`, and a generated
`mth5-validator.spec` in the working directory. -/
def buildOutputs (fs : FS) (isWindows : Bool) : FS :=
  let fs1 := upsertDirChild fs "dist" (exeName isWindows)
  let fs2 := upsertDirChild fs1 "build" "mth5-validator"
  if fs2.any (fun e => e.name = "mth5-validator.spec") then fs2
  else fs2 ++ [{ name := "mth5-validator.spec", isDir := false }]

/-- Model of `build_executable` (lines 111-170): run PyInstaller on the fixed
argument vector; an exception is caught and turned into `false`
(lines 162-170). -/
def build_executable (env : Env) (fs : FS) : Bool × FS :=
  if env.buildSucceeds then (true, buildOutputs fs env.isWindows)
  else (false, fs)

/-! ## test_executable (lines 173-202) -/

structure SmokeOutcome where
  /-- return value of `test_executable`. -/
  passed : Bool
  /-- the `--help` subprocess was launched (lines 192-194). -/
  ranHelp : Bool
  /-- the size reported on line 189 came from this many bytes
  (the printed figure is `bytes / 2^20`, display formatting only). -/
  reportedSizeBytes : Option Nat
  deriving Repr, DecidableEq

/-- Model of `test_executable` (lines 173-202): if `dist/<exe>` is absent, report
and return `false` without raising; otherwise report the size, run
`"<exe>" --help` through the shell, and pass iff the exit status is 0. -/
def test_executable (env : Env) (fs : FS) : SmokeOutcome :=
  if distHasBinary fs env.isWindows then
    { passed := env.helpExitCode == 0
      ranHelp := true
      reportedSizeBytes := some env.binarySize }
  else
    { passed := false, ranHelp := false, reportedSizeBytes := none }

/-! ## main (lines 254-287) -/

inductive Stage where
  | depsCheck | cleaner | builder | smokeTest | summary
  deriving Repr, DecidableEq

structure RunResult where
  exitCode : Nat
  /-- pipeline stages that actually ran, in order. -/
  stages : List Stage
  /-- pip invocations issued by the dependency checker. -/
  installs : List String
  /-- final working-directory state. -/
  fs : FS
  /-- cleanup warnings printed. -/
  warnings : List String
  /-- smoke-test outcome, when that stage ran. -/
  smoke : Option SmokeOutcome
  deriving Repr

/-- Model of `main` (lines 254-287): entry-point gate (263-266), dependency gate
(269-271), cleanup (274), build gate (277-279), smoke test (282, result
discarded), summary (285), `return 0`. -/
def main_run (env : Env) (fs : FS) : RunResult :=
  if !(fsHasTop fs entryPoint) then
    { exitCode := 1, stages := [], installs := [], fs := fs,
      warnings := [], smoke := none }
  else
    let (depsOk, installs) := check_dependencies env
    if !depsOk then
      { exitCode := 1, stages := [.depsCheck], installs := installs,
        fs := fs, warnings := [], smoke := none }
    else
      let (fs1, warns) := clean_build_dirs env.clean fs
      let (buildOk, fs2) := build_executable env fs1
      if !buildOk then
        { exitCode := 1, stages := [.depsCheck, .cleaner, .builder],
          installs := installs, fs := fs2, warnings := warns,
          smoke := none }
      else
        { exitCode := 0,
          stages := [.depsCheck, .cleaner, .builder, .smokeTest, .summary],
          installs := installs, fs := fs2, warnings := warns,
          smoke := some (test_executable env fs2) }

/-- Importability facts after one run: a pip install that ran and works
makes the library importable for the next run; nothing else changes.
The installs run exactly when the entry-point gate passed. -/
def envAfter (env : Env) (fs : FS) : Env :=
  if fsHasTop fs entryPoint then
    { env with
        h5pyImportable := env.h5pyImportable || env.h5pyInstallWorks
        pyInstallerImportable :=
          env.pyInstallerImportable || env.pyInstallerInstallWorks }
  else env

/-! ## Sample environments and directories used as concrete instances -/

/-- Deletion environment in which every removal succeeds. -/
def cleanOk : CleanEnv :=
  { unlinkFails := fun _ => false, retryFails := fun _ => false }

/-- Deletion environment in which the path `dist/locked.bin` resists both
the first removal attempt and the chmod-and-retry of the handler. -/
def cleanLocked : CleanEnv :=
  { unlinkFails := fun p => p == "dist/locked.bin"
    retryFails := fun p => p == "dist/locked.bin" }

/-- Sample run environment: everything present and working, Linux host. -/
def envA : Env :=
  { h5pyImportable := true, h5pyInstallWorks := true
    pyInstallerImportable := true, pyInstallerInstallWorks := true
    buildSucceeds := true, isWindows := false
    helpExitCode := 0, binarySize := 26214400, clean := cleanOk }

/-- Sample environment whose smoke test fails with exit status 2. -/
def envSmokeFail : Env := { envA with helpExitCode := 2 }

/-- Sample environment: h5py missing and its install broken, PyInstaller
present. -/
def envH5pyBroken : Env :=
  { envA with h5pyImportable := false, h5pyInstallWorks := false }

/-- Sample environment: PyInstaller missing and its install broken. -/
def envDepsFail : Env :=
  { envA with pyInstallerImportable := false, pyInstallerInstallWorks := false }

/-- Sample environment with the locked `dist` file. -/
def envLocked : Env := { envA with clean := cleanLocked }

/-- Console encoder accepting exactly the ASCII code points. -/
def asciiOnlyEncoder : Nat → Bool := fun c => c < 128

/-- Working directory holding only the entry-point script. -/
def fsEntryOnly : FS := [{ name := entryPoint, isDir := false }]

/-- Working directory with the entry point and a stale `dist` tree whose
single file is locked. -/
def fsLocked : FS :=
  [{ name := entryPoint, isDir := false },
   { name := "dist", isDir := true, children := ["locked.bin"] }]

/-- Working directory with a built binary present in `dist`. -/
def fsWithBinary : FS :=
  [{ name := entryPoint, isDir := false },
   { name := "dist", isDir := true, children := ["mth5-validator"] }]

/-- Working directory exercising the cleanup frame property. -/
def fsFrame : FS :=
  [{ name := entryPoint, isDir := false },
   { name := "data.h5", isDir := false },
   { name := "build", isDir := true, children := ["junk.o"] },
   { name := "old.spec", isDir := false }]

/-! ## Helper lemmas -/

/-- The success flag of the dependency checker is a function of the two
PyInstaller facts alone: the h5py block never re-imports and never
influences the return value. -/
theorem check_dependencies_fst (env : Env) :
    (check_dependencies env).1 =
      (env.pyInstallerImportable || env.pyInstallerInstallWorks) := by
  unfold check_dependencies
  cases env.pyInstallerImportable <;>
    cases env.pyInstallerInstallWorks <;> simp

/-- Shape of a run aborted at the entry-point gate (lines 263-266). -/
theorem main_run_entryMissing (env : Env) (fs : FS)
    (he : fsHasTop fs entryPoint = false) :
    main_run env fs =
      { exitCode := 1, stages := [], installs := [], fs := fs,
        warnings := [], smoke := none } := by
  simp [main_run, he]

/-- Shape of a run aborted at the dependency gate (lines 269-271). -/
theorem main_run_depsFail (env : Env) (fs : FS)
    (he : fsHasTop fs entryPoint = true)
    (hd : (check_dependencies env).1 = false) :
    main_run env fs =
      { exitCode := 1, stages := [Stage.depsCheck],
        installs := (check_dependencies env).2, fs := fs,
        warnings := [], smoke := none } := by
  rcases hcd : check_dependencies env with ⟨ok, ins⟩
  rw [hcd] at hd
  simp only at hd
  subst hd
  simp [main_run, he, hcd]

/-- Shape of a run aborted at the build gate (lines 277-279). -/
theorem main_run_buildFail (env : Env) (fs : FS)
    (he : fsHasTop fs entryPoint = true)
    (hd : (check_dependencies env).1 = true)
    (hb : env.buildSucceeds = false) :
    main_run env fs =
      { exitCode := 1,
        stages := [Stage.depsCheck, Stage.cleaner, Stage.builder],
        installs := (check_dependencies env).2,
        fs := (clean_build_dirs env.clean fs).1,
        warnings := (clean_build_dirs env.clean fs).2,
        smoke := none } := by
  rcases hcd : check_dependencies env with ⟨ok, ins⟩
  rw [hcd] at hd
  simp only at hd
  subst hd
  rcases hcl : clean_build_dirs env.clean fs with ⟨fs1, warns⟩
  simp [main_run, he, hcd, hcl, build_executable, hb]

/-- Shape of a run that passes all three gates (lines 281-287). -/
theorem main_run_buildOk (env : Env) (fs : FS)
    (he : fsHasTop fs entryPoint = true)
    (hd : (check_dependencies env).1 = true)
    (hb : env.buildSucceeds = true) :
    main_run env fs =
      { exitCode := 0,
        stages := [Stage.depsCheck, Stage.cleaner, Stage.builder,
          Stage.smokeTest, Stage.summary],
        installs := (check_dependencies env).2,
        fs := buildOutputs (clean_build_dirs env.clean fs).1 env.isWindows,
        warnings := (clean_build_dirs env.clean fs).2,
        smoke := some (test_executable env
          (buildOutputs (clean_build_dirs env.clean fs).1 env.isWindows)) } := by
  rcases hcd : check_dependencies env with ⟨ok, ins⟩
  rw [hcd] at hd
  simp only at hd
  subst hd
  rcases hcl : clean_build_dirs env.clean fs with ⟨fs1, warns⟩
  simp [main_run, he, hcd, hcl, build_executable, hb]

/-- Filtering twice with the same predicate filters once. -/
theorem filter_self_of_filter {α : Type} (p : α → Bool) (l : List α) :
    (l.filter p).filter p = l.filter p :=
  List.filter_eq_self.mpr fun _ ha => List.of_mem_filter ha

/-- A `filterMap` that fixes every member of the list is the identity. -/
theorem filterMap_eq_self_of_forall {α : Type} (F : α → Option α)
    (l : List α) (h : ∀ e ∈ l, F e = some e) : l.filterMap F = l := by
  induction l with
  | nil => rfl
  | cons a t ih =>
      rw [List.filterMap_cons_some (h a (List.mem_cons_self a t)),
        ih fun e he => h e (List.mem_cons_of_mem a he)]

/-- The surviving directory of a failed `rmtree` keeps its name and kind. -/
theorem rmtreeEntry_preserves (cenv : CleanEnv) {e e' : Entry}
    (h : rmtreeEntry cenv e = some e') :
    e'.name = e.name ∧ e'.isDir = e.isDir := by
  simp only [rmtreeEntry] at h
  split at h
  · simp at h
  · rw [← Option.some.inj h]
    exact ⟨rfl, rfl⟩

/-- Running `rmtree` again on a directory it failed to remove changes
nothing: the surviving children resist again and the `rmdir` fails again. -/
theorem rmtreeEntry_stable (cenv : CleanEnv) {e e' : Entry}
    (h : rmtreeEntry cenv e = some e') : rmtreeEntry cenv e' = some e' := by
  simp only [rmtreeEntry] at h ⊢
  split at h
  · simp at h
  case isFalse hcond =>
    have he' : e' = { e with children := e.children.filter (childKeep cenv e.name) } :=
      (Option.some.inj h).symm
    subst he'
    simp only [filter_self_of_filter]
    rw [if_neg hcond]

/-- One pass of the line 93-100 loop body keeps the name and kind of every
entry it leaves behind. -/
theorem cleanDirEntry_preserves (cenv : CleanEnv) (d : String) {e e' : Entry}
    (h : cleanDirEntry cenv d e = some e') :
    e'.name = e.name ∧ e'.isDir = e.isDir := by
  unfold cleanDirEntry at h
  split at h
  · exact rmtreeEntry_preserves cenv h
  · rw [← Option.some.inj h]
    exact ⟨rfl, rfl⟩

/-- One pass of the line 93-100 loop body is idempotent on each entry it
leaves behind. -/
theorem cleanDirEntry_stable (cenv : CleanEnv) (d : String) {e e' : Entry}
    (h : cleanDirEntry cenv d e = some e') :
    cleanDirEntry cenv d e' = some e' := by
  unfold cleanDirEntry at h ⊢
  split at h
  case isTrue hcond =>
    rcases rmtreeEntry_preserves cenv h with ⟨hn, hd2⟩
    rw [if_pos (by rw [hn, hd2]; exact hcond)]
    exact rmtreeEntry_stable cenv h
  case isFalse hcond =>
    have he' : e' = e := (Option.some.inj h).symm
    subst he'
    rw [if_neg hcond]

/-- An entry matching the `*.spec` glob passes through a directory-removal
step untouched, so it was already in the input (the removal steps only
concern `build` and `dist`, whose names do not match the glob). -/
theorem mem_of_mem_cleanDirStep (cenv : CleanEnv) (d : String) (fs : FS)
    (e : Entry) (hne : matchesSpecGlob d = false)
    (hmem : e ∈ cleanDirStep cenv fs d)
    (hspec : matchesSpecGlob e.name = true) : e ∈ fs := by
  rcases List.mem_filterMap.mp hmem with ⟨a, ha, hfa⟩
  unfold cleanDirEntry at hfa
  split at hfa
  case isTrue hcond =>
    rcases rmtreeEntry_preserves cenv hfa with ⟨hn, _⟩
    have had : a.name = d :=
      of_decide_eq_true (Bool.and_elim_left hcond)
    rw [hn, had, hne] at hspec
    exact absurd hspec (by simp)
  case isFalse =>
    rw [Option.some.inj hfa] at ha
    exact ha

/-- Unfolding of the filesystem component of the cleaner. -/
theorem clean_build_dirs_fst (cenv : CleanEnv) (fs : FS) :
    (clean_build_dirs cenv fs).1 = (cleanDirsPass cenv fs).filter
      (fun e => !(matchesSpecGlob e.name && unlinkSucceeds cenv e)) := rfl

/-- Unfolding of the warning component of the cleaner. -/
theorem clean_build_dirs_snd (cenv : CleanEnv) (fs : FS) :
    (clean_build_dirs cenv fs).2 = ((cleanDirsPass cenv fs).filter
      (fun e => matchesSpecGlob e.name && !(unlinkSucceeds cenv e))).map
      (fun e => "Warning: Could not remove " ++ e.name) := rfl

/-! ## Claims -/

/-- C8: the cleaning stage deletes only directories named `build` or
`dist` and non-directory entries matching the `*.spec` glob: every other
top-level entry of the working directory survives cleaning unchanged. -/
theorem c8_cleaner_frame (cenv : CleanEnv) (fs : FS) (e : Entry)
    (hmem : e ∈ fs)
    (hdir : e.isDir = true → e.name ≠ "build" ∧ e.name ≠ "dist")
    (hfile : e.isDir = false → matchesSpecGlob e.name = false) :
    e ∈ (clean_build_dirs cenv fs).1 := by
  have hstep : ∀ d : String, d = "build" ∨ d = "dist" →
      cleanDirEntry cenv d e = some e := by
    intro d hd
    unfold cleanDirEntry
    cases hb : e.isDir with
    | false => simp [hb]
    | true =>
        have hne : e.name ≠ d := by
          rcases hd with rfl | rfl
          · exact (hdir hb).1
          · exact (hdir hb).2
        simp [hne]
  have h1 : e ∈ cleanDirsPass cenv fs :=
    List.mem_filterMap.mpr ⟨e,
      List.mem_filterMap.mpr ⟨e, hmem, hstep "build" (Or.inl rfl)⟩,
      hstep "dist" (Or.inr rfl)⟩
  rw [clean_build_dirs_fst]
  refine List.mem_filter.mpr ⟨h1, ?_⟩
  cases hb : e.isDir with
  | true => simp [unlinkSucceeds, hb]
  | false => simp [unlinkSucceeds, hb, hfile hb]

/-- Concrete instance of the C8 theorem: a data file survives a cleanup
that removes a `build` tree and a spec file around it. -/
theorem c8_cleaner_frame_witness :
    ({ name := "data.h5", isDir := false, children := [] } : Entry) ∈ fsFrame ∧
      ({ name := "data.h5", isDir := false, children := [] } : Entry) ∈
        (clean_build_dirs cleanOk fsFrame).1 :=
  ⟨by decide, c8_cleaner_frame cleanOk fsFrame
    { name := "data.h5", isDir := false, children := [] }
    (by decide) (by decide) (by decide)⟩

/-- C6 counterexample: `dist/locked.bin` resists its removal and the
chmod-and-retry of the handler, so the cleaner fails to delete `dist/`,
yet it emits NO warning at all: the failure is swallowed by the `pass`
on line 86, and line 98 reports the directory as removed. -/
theorem c6_locked_file_fails_silently :
    (clean_build_dirs cleanLocked fsLocked).1 = fsLocked ∧
      fsHasTop (clean_build_dirs cleanLocked fsLocked).1 "dist" = true ∧
      (clean_build_dirs cleanLocked fsLocked).2 = [] := by
  refine ⟨by decide, by decide, by decide⟩

/-- C6 (amended): the cleaner never raises and never aborts the pipeline:
every per-item deletion failure is caught and the remaining items are
still attempted, after which `main` proceeds to the build step; however
only `*.spec` unlink failures are reported as warnings, while failures
inside the recursive removal of `build/` and `dist/` are swallowed
silently by the read-only error handler. -/
theorem c6_cleaner_never_aborts (env : Env) (fs : FS)
    (he : fsHasTop fs entryPoint = true)
    (hd : (check_dependencies env).1 = true) :
    Stage.cleaner ∈ (main_run env fs).stages ∧
      Stage.builder ∈ (main_run env fs).stages ∧
      (∀ e ∈ fs, matchesSpecGlob e.name = true →
        unlinkSucceeds env.clean e = true →
        e ∉ (clean_build_dirs env.clean fs).1) ∧
      (∀ w ∈ (clean_build_dirs env.clean fs).2, ∃ e, e ∈ fs ∧
        matchesSpecGlob e.name = true ∧
        w = "Warning: Could not remove " ++ e.name) := by
  refine ⟨?_, ?_, ?_, ?_⟩
  · cases hb : env.buildSucceeds with
    | false => rw [main_run_buildFail env fs he hd hb]; simp
    | true => rw [main_run_buildOk env fs he hd hb]; simp
  · cases hb : env.buildSucceeds with
    | false => rw [main_run_buildFail env fs he hd hb]; simp
    | true => rw [main_run_buildOk env fs he hd hb]; simp
  · intro e _ hspec hsucc hmem
    rw [clean_build_dirs_fst] at hmem
    have hp := (List.mem_filter.mp hmem).2
    simp [hspec, hsucc] at hp
  · intro w hw
    rw [clean_build_dirs_snd] at hw
    rcases List.mem_map.mp hw with ⟨e, hef, rfl⟩
    have he1 := (List.mem_filter.mp hef).1
    have he2 := (List.mem_filter.mp hef).2
    have hspec : matchesSpecGlob e.name = true :=
      Bool.and_elim_left he2
    refine ⟨e, ?_, hspec, rfl⟩
    exact mem_of_mem_cleanDirStep env.clean "build" fs e (by decide)
      (mem_of_mem_cleanDirStep env.clean "dist" _ e (by decide) he1 hspec)
      hspec

/-- Concrete instance of the amended C6 theorem: with the locked `dist`
file the run still reaches the cleaner and the builder. -/
theorem c6_cleaner_never_aborts_witness :
    Stage.cleaner ∈ (main_run envLocked fsLocked).stages ∧
      Stage.builder ∈ (main_run envLocked fsLocked).stages :=
  ⟨(c6_cleaner_never_aborts envLocked fsLocked (by decide) (by decide)).1,
    (c6_cleaner_never_aborts envLocked fsLocked (by decide) (by decide)).2.1⟩

/-- C1: if the entry-point file is absent from the working directory, `main`
exits with code 1 before the dependency checker, the artifact cleaner, or
the build invoker runs: no stage executes, no pip install is issued, and
the filesystem is left untouched. -/
theorem c1_missing_entry_aborts_early (env : Env) (fs : FS)
    (h : fsHasTop fs entryPoint = false) :
    (main_run env fs).exitCode = 1 ∧ (main_run env fs).stages = [] ∧
      (main_run env fs).installs = [] ∧ (main_run env fs).fs = fs := by
  rw [main_run_entryMissing env fs h]
  exact ⟨rfl, rfl, rfl, rfl⟩

/-- Concrete instance of the C1 theorem: empty working directory. -/
theorem c1_missing_entry_aborts_early_witness :
    fsHasTop [] entryPoint = false ∧
      ((main_run envA []).exitCode = 1 ∧ (main_run envA []).stages = [] ∧
        (main_run envA []).installs = [] ∧ (main_run envA []).fs = []) :=
  ⟨by decide, c1_missing_entry_aborts_early envA [] (by decide)⟩

/-- C3: once the entry-point, dependency, and build gates have passed,
`main` returns 0 whatever the smoke test does: `env` is arbitrary here, so
the exit code is independent of the `--help` exit status and of the
presence of the binary. -/
theorem c3_exit_zero_after_gates (env : Env) (fs : FS)
    (he : fsHasTop fs entryPoint = true)
    (hd : (check_dependencies env).1 = true)
    (hb : env.buildSucceeds = true) :
    (main_run env fs).exitCode = 0 := by
  rw [main_run_buildOk env fs he hd hb]

/-- Concrete instance of the C3 theorem: the smoke test fails (help exits
with status 2) and the pipeline still exits 0. -/
theorem c3_exit_zero_after_gates_witness :
    fsHasTop fsEntryOnly entryPoint = true ∧
      (check_dependencies envSmokeFail).1 = true ∧
      envSmokeFail.buildSucceeds = true ∧
      (main_run envSmokeFail fsEntryOnly).exitCode = 0 :=
  ⟨by decide, by decide, by decide,
    c3_exit_zero_after_gates envSmokeFail fsEntryOnly
      (by decide) (by decide) (by decide)⟩

/-- C7: with both libraries already importable, the dependency checker
issues no pip invocation at all and returns `True`. -/
theorem c7_no_install_when_importable (env : Env)
    (h1 : env.h5pyImportable = true)
    (h2 : env.pyInstallerImportable = true) :
    check_dependencies env = (true, []) := by
  simp [check_dependencies, h1, h2]

/-- Concrete instance of the C7 theorem. -/
theorem c7_no_install_when_importable_witness :
    envA.h5pyImportable = true ∧ envA.pyInstallerImportable = true ∧
      check_dependencies envA = (true, []) :=
  ⟨by decide, by decide,
    c7_no_install_when_importable envA (by decide) (by decide)⟩

/-- C2 counterexample: h5py is unimportable and stays unimportable after
its pip install (the install "fails after the one retry" in the words of
the claim), yet the checker returns `True`: the h5py block (lines 47-53)
issues the install and falls through without re-attempting the import, so
an h5py install failure never yields `False`. -/
theorem c2_h5py_failure_never_false :
    check_dependencies envH5pyBroken = (true, ["pip install h5py"]) ∧
      check_dependencies_specSuccess envH5pyBroken = false := by
  constructor <;> decide

/-- C2 (amended): the install-and-retry applies to PyInstaller alone: the
return value equals importability of PyInstaller after its one retry,
independent of both h5py facts; a missing library triggers exactly one
pip call each; a `False` return makes `main` exit with code 1 right
after the dependency stage. -/
theorem c2_checker_pyinstaller_only (env : Env) (fs : FS) :
    (check_dependencies env).1 =
        (env.pyInstallerImportable || env.pyInstallerInstallWorks) ∧
      (check_dependencies env).2 =
        ((if env.h5pyImportable then [] else ["pip install h5py"]) ++
          if env.pyInstallerImportable then []
          else ["pip install pyinstaller"]) ∧
      (fsHasTop fs entryPoint = true → (check_dependencies env).1 = false →
        (main_run env fs).exitCode = 1 ∧
          (main_run env fs).stages = [Stage.depsCheck]) := by
  refine ⟨check_dependencies_fst env, ?_, ?_⟩
  · unfold check_dependencies
    cases env.h5pyImportable <;> cases env.pyInstallerImportable <;>
      cases env.pyInstallerInstallWorks <;> simp
  · intro he hd
    rw [main_run_depsFail env fs he hd]
    exact ⟨rfl, rfl⟩

/-- Concrete instance of the amended C2 theorem: PyInstaller missing, its
install broken, so the checker fails and the run exits 1 after the
dependency stage. -/
theorem c2_checker_pyinstaller_only_witness :
    (check_dependencies envDepsFail).1 =
        (envDepsFail.pyInstallerImportable
          || envDepsFail.pyInstallerInstallWorks) ∧
      (main_run envDepsFail fsEntryOnly).exitCode = 1 ∧
      (main_run envDepsFail fsEntryOnly).stages = [Stage.depsCheck] :=
  ⟨(c2_checker_pyinstaller_only envDepsFail fsEntryOnly).1,
    (c2_checker_pyinstaller_only envDepsFail fsEntryOnly).2.2
      (by decide) (by decide)⟩

/-- C4: when `dist/<exe>` is absent the smoke tester returns failure
without raising, without launching the help subprocess, and reports no
size; when it is present, it reports the file size, runs the binary with
`--help` through the shell, and passes exactly when the exit status is
zero. -/
theorem c4_smoke_test_behaviour (env : Env) (fs : FS) :
    (distHasBinary fs env.isWindows = false →
      test_executable env fs =
        { passed := false, ranHelp := false, reportedSizeBytes := none }) ∧
    (distHasBinary fs env.isWindows = true →
      test_executable env fs =
        { passed := env.helpExitCode == 0, ranHelp := true,
          reportedSizeBytes := some env.binarySize }) := by
  constructor <;> intro h <;> simp [test_executable, h]

/-- Concrete instance of the C4 theorem: binary present, help exits 0. -/
theorem c4_smoke_test_behaviour_witness :
    distHasBinary fsWithBinary envA.isWindows = true ∧
      test_executable envA fsWithBinary =
        { passed := envA.helpExitCode == 0, ranHelp := true,
          reportedSizeBytes := some envA.binarySize } :=
  ⟨by decide, (c4_smoke_test_behaviour envA fsWithBinary).2 (by decide)⟩

/-- C5 counterexample: the exclusion list handed to the packaging tool has
twelve entries, not nine; all twelve occur in the argument vector. -/
theorem c5_twelve_exclusions_not_nine :
    excludeModuleArgs.length = 12 ∧ ¬ excludeModuleArgs.length = 9 ∧
      ((build_args false).countP fun a => excludeModuleArgs.contains a)
        = 12 := by
  refine ⟨by decide, by decide, by decide⟩

/-- C5 (amended): the build invoker passes the same fixed argument vector
on either platform: the entry-point filename first, single-file mode, the
output name with the `.exe` suffix stripped (hence identical on Windows
and elsewhere), console mode, cache cleaning, full resource collection
for h5py, exactly four hidden-import hints for h5py submodules, metadata
copies for exactly two libraries, exactly TWELVE module exclusions, and
reduced log verbosity. -/
theorem c5_build_args_fixed (w : Bool) :
    build_args w = build_args false ∧
      (build_args w).head? = some entryPoint ∧
      "--name=" ++ stripExe (exeName w) = "--name=mth5-validator" ∧
      "--onefile" ∈ build_args w ∧ "--console" ∈ build_args w ∧
      "--clean" ∈ build_args w ∧ "--collect-all=h5py" ∈ build_args w ∧
      "--log-level=WARN" ∈ build_args w ∧
      hiddenImportArgs.length = 4 ∧
      (∀ a ∈ hiddenImportArgs, a ∈ build_args w) ∧
      copyMetadataArgs.length = 2 ∧
      (∀ a ∈ copyMetadataArgs, a ∈ build_args w) ∧
      excludeModuleArgs.length = 12 ∧
      (∀ a ∈ excludeModuleArgs, a ∈ build_args w) := by
  cases w <;> decide

/-- C10: for every message and every console encoder that accepts ASCII,
`safe_print` terminates normally: either the original message prints, or
the `UnicodeEncodeError` is caught and the marker-replaced,
ASCII-replaced fallback prints instead, which cannot raise again. -/
theorem c10_safe_print_never_raises (encodable : Nat → Bool)
    (msg : List Nat) (hascii : ∀ c, c < 128 → encodable c = true) :
    (tryPrint encodable msg = .ok msg →
      safe_print encodable msg = .ok msg) ∧
    (tryPrint encodable msg = .unicodeError →
      safe_print encodable msg = .ok (fallbackMessage msg)) := by
  have hlt : ∀ c ∈ fallbackMessage msg, c < 128 := by
    intro c hc
    rcases List.mem_map.mp hc with ⟨a, _, rfl⟩
    unfold asciiReplaceChar
    split <;> omega
  have hfb : (fallbackMessage msg).all encodable = true := by
    refine List.all_eq_true.mpr ?_
    intro c hc
    exact hascii c (hlt c hc)
  constructor
  · intro h
    simp [safe_print, h]
  · intro h
    unfold safe_print
    rw [h]
    show tryPrint encodable (fallbackMessage msg) = .ok (fallbackMessage msg)
    unfold tryPrint
    rw [if_pos hfb]

/-- Concrete instance of the C10 theorem: a message holding the checkmark
raises on the ASCII-only console; the fallback replaces it by the marker
and prints. -/
theorem c10_safe_print_never_raises_witness :
    tryPrint asciiOnlyEncoder [checkmarkChar, 72] = .unicodeError ∧
      safe_print asciiOnlyEncoder [checkmarkChar, 72] =
        .ok [91, 79, 75, 93, 72] :=
  ⟨by decide,
    ((c10_safe_print_never_raises asciiOnlyEncoder [checkmarkChar, 72]
        (fun c hc => decide_eq_true hc)).2 (by decide)).trans (by decide)⟩

/-- An entry that is not the targeted directory passes one removal step
untouched. -/
theorem cleanDirEntry_of_not_target (cenv : CleanEnv) (d : String) (e : Entry)
    (h : ¬(e.name = d ∧ e.isDir = true)) : cleanDirEntry cenv d e = some e := by
  unfold cleanDirEntry
  split
  case isTrue hc =>
    exact absurd ⟨of_decide_eq_true (Bool.and_elim_left hc),
      Bool.and_elim_right hc⟩ h
  case isFalse => rfl

/-- Every entry the cleaner leaves behind is a fixed point of all three of
its passes: the surviving `build`/`dist` trees resist removal again, and
kept entries fail the glob-unlink test again. -/
theorem clean_fs_stable (cenv : CleanEnv) (fs : FS) (e : Entry)
    (hmem : e ∈ (clean_build_dirs cenv fs).1) :
    cleanDirEntry cenv "build" e = some e ∧
      cleanDirEntry cenv "dist" e = some e ∧
      (!(matchesSpecGlob e.name && unlinkSucceeds cenv e)) = true := by
  rw [clean_build_dirs_fst] at hmem
  have hp := (List.mem_filter.mp hmem).2
  have h1 : e ∈ cleanDirsPass cenv fs := (List.mem_filter.mp hmem).1
  rcases List.mem_filterMap.mp h1 with ⟨e2, he2, hfd⟩
  rcases List.mem_filterMap.mp he2 with ⟨e1, _, hfb⟩
  have hFd : cleanDirEntry cenv "dist" e = some e :=
    cleanDirEntry_stable cenv "dist" hfd
  have hFb : cleanDirEntry cenv "build" e = some e := by
    by_cases hc : e.name = "build" ∧ e.isDir = true
    · rcases cleanDirEntry_preserves cenv "dist" hfd with ⟨hn, _⟩
      have he2name : e2.name = "build" := by rw [← hn]; exact hc.1
      have hee2 : e = e2 := by
        have hne : ¬(e2.name = "dist" ∧ e2.isDir = true) := by
          intro hcontra
          rw [he2name] at hcontra
          exact absurd hcontra.1 (by decide)
        rw [cleanDirEntry_of_not_target cenv "dist" e2 hne] at hfd
        exact (Option.some.inj hfd).symm
      rw [hee2]
      exact cleanDirEntry_stable cenv "build" hfb
    · exact cleanDirEntry_of_not_target cenv "build" e hc
  exact ⟨hFb, hFd, hp⟩

/-- Cleaning is idempotent on the working directory: a second invocation
of the cleaner on the state the first one produced changes nothing. -/
theorem clean_build_dirs_idem (cenv : CleanEnv) (fs : FS) :
    (clean_build_dirs cenv (clean_build_dirs cenv fs).1).1 =
      (clean_build_dirs cenv fs).1 := by
  have hb : cleanDirStep cenv (clean_build_dirs cenv fs).1 "build" =
      (clean_build_dirs cenv fs).1 :=
    filterMap_eq_self_of_forall _ _ fun e he => (clean_fs_stable cenv fs e he).1
  have hd : cleanDirStep cenv (clean_build_dirs cenv fs).1 "dist" =
      (clean_build_dirs cenv fs).1 :=
    filterMap_eq_self_of_forall _ _ fun e he => (clean_fs_stable cenv fs e he).2.1
  have hpass : cleanDirsPass cenv (clean_build_dirs cenv fs).1 =
      (clean_build_dirs cenv fs).1 := by
    unfold cleanDirsPass
    rw [hb, hd]
  rw [clean_build_dirs_fst, hpass]
  exact List.filter_eq_self.mpr fun e he => (clean_fs_stable cenv fs e he).2.2

/-- A top-level name other than `build`, `dist` and the `*.spec` matches
is still present after cleaning. -/
theorem fsHasTop_clean (cenv : CleanEnv) (fs : FS) (n : String)
    (hb : ¬ n = "build") (hd : ¬ n = "dist") (hs : matchesSpecGlob n = false)
    (h : fsHasTop fs n = true) :
    fsHasTop (clean_build_dirs cenv fs).1 n = true := by
  unfold fsHasTop at h ⊢
  rcases List.any_eq_true.mp h with ⟨e, hmem, hp⟩
  have hname : e.name = n := of_decide_eq_true hp
  have hFb : cleanDirEntry cenv "build" e = some e :=
    cleanDirEntry_of_not_target cenv "build" e
      (by intro hcontra; rw [hname] at hcontra; exact hb hcontra.1)
  have hFd : cleanDirEntry cenv "dist" e = some e :=
    cleanDirEntry_of_not_target cenv "dist" e
      (by intro hcontra; rw [hname] at hcontra; exact hd hcontra.1)
  refine List.any_eq_true.mpr ⟨e, ?_, hp⟩
  rw [clean_build_dirs_fst]
  refine List.mem_filter.mpr ⟨?_, ?_⟩
  · exact List.mem_filterMap.mpr ⟨e,
      List.mem_filterMap.mpr ⟨e, hmem, hFb⟩, hFd⟩
  · simp [hname, hs]

/-- The per-entry upsert step never renames an entry. -/
theorem upsertEntryFun_name (d c : String) (e : Entry) :
    (upsertEntryFun d c e).name = e.name := by
  unfold upsertEntryFun
  split <;> rfl

/-- A present top-level name is still present after an upsert. -/
theorem fsHasTop_upsertDirChild (fs : FS) (d c n : String)
    (h : fsHasTop fs n = true) :
    fsHasTop (upsertDirChild fs d c) n = true := by
  unfold upsertDirChild
  unfold fsHasTop at h ⊢
  rcases List.any_eq_true.mp h with ⟨e, hmem, hp⟩
  split
  · refine List.any_eq_true.mpr
      ⟨upsertEntryFun d c e, List.mem_map.mpr ⟨e, hmem, rfl⟩, ?_⟩
    rw [upsertEntryFun_name]
    exact hp
  · exact List.any_eq_true.mpr ⟨e, List.mem_append_left _ hmem, hp⟩

/-- A present top-level name is still present after the build writes its
outputs. -/
theorem fsHasTop_buildOutputs (fs : FS) (w : Bool) (n : String)
    (h : fsHasTop fs n = true) :
    fsHasTop (buildOutputs fs w) n = true := by
  simp only [buildOutputs]
  have h2 := fsHasTop_upsertDirChild (upsertDirChild fs "dist" (exeName w))
    "build" "mth5-validator" n (fsHasTop_upsertDirChild fs "dist" (exeName w) n h)
  split
  · exact h2
  · unfold fsHasTop at h2 ⊢
    rcases List.any_eq_true.mp h2 with ⟨e, hmem, hp⟩
    exact List.any_eq_true.mpr ⟨e, List.mem_append_left _ hmem, hp⟩

/-- Upserting the binary into `dist` makes the binary present. -/
theorem distHasBinary_upsert_exe (fs : FS) (w : Bool) :
    distHasBinary (upsertDirChild fs "dist" (exeName w)) w = true := by
  unfold distHasBinary upsertDirChild
  split
  case isTrue hc =>
    rcases List.any_eq_true.mp hc with ⟨e, hmem, hp⟩
    refine List.any_eq_true.mpr
      ⟨upsertEntryFun "dist" (exeName w) e, List.mem_map.mpr ⟨e, hmem, rfl⟩, ?_⟩
    have hname : e.name = "dist" := of_decide_eq_true (Bool.and_elim_left hp)
    have hdir : e.isDir = true := Bool.and_elim_right hp
    unfold upsertEntryFun
    rw [if_pos hp]
    simp only [hname, hdir, decide_True, Bool.true_and]
    split
    case isTrue hcont => exact hcont
    case isFalse =>
      show (e.children ++ [exeName w]).elem (exeName w) = true
      exact List.elem_iff.mpr (List.mem_append_right _ (by simp))
  case isFalse =>
    refine List.any_eq_true.mpr
      ⟨{ name := "dist", isDir := true, children := [exeName w] },
        List.mem_append_right _ (by simp), by simp⟩

/-- The binary stays present when some other directory is upserted. -/
theorem distHasBinary_upsert_other (fs : FS) (d c : String) (w : Bool)
    (hd : ¬ d = "dist") (h : distHasBinary fs w = true) :
    distHasBinary (upsertDirChild fs d c) w = true := by
  unfold distHasBinary at h ⊢
  unfold upsertDirChild
  rcases List.any_eq_true.mp h with ⟨e, hmem, hp⟩
  have hname : e.name = "dist" :=
    of_decide_eq_true (Bool.and_elim_left (Bool.and_elim_left hp))
  split
  · have hfe : upsertEntryFun d c e = e := by
      unfold upsertEntryFun
      split
      case isTrue hc =>
        have h1 : e.name = d := of_decide_eq_true (Bool.and_elim_left hc)
        rw [hname] at h1
        exact absurd h1.symm hd
      case isFalse => rfl
    refine List.any_eq_true.mpr
      ⟨upsertEntryFun d c e, List.mem_map.mpr ⟨e, hmem, rfl⟩, ?_⟩
    rw [hfe]
    exact hp
  · exact List.any_eq_true.mpr ⟨e, List.mem_append_left _ hmem, hp⟩

/-- The binary stays present when an entry is appended. -/
theorem distHasBinary_append (fs : FS) (w : Bool) (x : Entry)
    (h : distHasBinary fs w = true) : distHasBinary (fs ++ [x]) w = true := by
  unfold distHasBinary at h ⊢
  rcases List.any_eq_true.mp h with ⟨e, hmem, hp⟩
  exact List.any_eq_true.mpr ⟨e, List.mem_append_left _ hmem, hp⟩

/-- After a successful build the binary is present in `dist`, whatever the
starting state was. -/
theorem distHasBinary_buildOutputs (fs : FS) (w : Bool) :
    distHasBinary (buildOutputs fs w) w = true := by
  simp only [buildOutputs]
  have h2 := distHasBinary_upsert_other (upsertDirChild fs "dist" (exeName w))
    "build" "mth5-validator" w (by decide) (distHasBinary_upsert_exe fs w)
  split
  · exact h2
  · exact distHasBinary_append _ w _ h2

/-- Unfolding of `envAfter` when the entry-point gate passed. -/
theorem envAfter_of_entry (env : Env) (fs : FS)
    (he : fsHasTop fs entryPoint = true) :
    envAfter env fs = { env with
      h5pyImportable := env.h5pyImportable || env.h5pyInstallWorks
      pyInstallerImportable :=
        env.pyInstallerImportable || env.pyInstallerInstallWorks } := by
  unfold envAfter
  rw [if_pos he]

/-- C9: running the full pipeline twice in succession, with the second run
starting from the filesystem state the first run left (and with
importability reflecting any installs the first run performed), yields
the same terminal presence or absence of the expected binary in `dist/`
on both runs. -/
theorem c9_pipeline_idempotent (env : Env) (fs : FS) :
    distHasBinary (main_run (envAfter env fs) (main_run env fs).fs).fs
        env.isWindows
      = distHasBinary (main_run env fs).fs env.isWindows := by
  cases hentry : fsHasTop fs entryPoint with
  | false =>
      have h1 := main_run_entryMissing env fs hentry
      have hfs : (main_run env fs).fs = fs := by rw [h1]
      have h2 : envAfter env fs = env := by
        unfold envAfter
        rw [hentry]
        rfl
      rw [h2, hfs, hfs]
  | true =>
      have henv := envAfter_of_entry env fs hentry
      cases hp : env.pyInstallerImportable || env.pyInstallerInstallWorks with
      | false =>
          have hd1 : (check_dependencies env).1 = false := by
            rw [check_dependencies_fst, hp]
          have h1 := main_run_depsFail env fs hentry hd1
          have hfs : (main_run env fs).fs = fs := by rw [h1]
          have hd2 : (check_dependencies (envAfter env fs)).1 = false := by
            rw [check_dependencies_fst, henv]
            show ((env.pyInstallerImportable || env.pyInstallerInstallWorks)
                || env.pyInstallerInstallWorks) = false
            rcases Bool.or_eq_false_iff.mp hp with ⟨ha, hb⟩
            rw [ha, hb]
            rfl
          have h2 := main_run_depsFail (envAfter env fs) fs hentry hd2
          have hfs2 : (main_run (envAfter env fs) fs).fs = fs := by rw [h2]
          rw [hfs, hfs2]
      | true =>
          have hd1 : (check_dependencies env).1 = true := by
            rw [check_dependencies_fst, hp]
          have hd2 : (check_dependencies (envAfter env fs)).1 = true := by
            rw [check_dependencies_fst, henv]
            show ((env.pyInstallerImportable || env.pyInstallerInstallWorks)
                || env.pyInstallerInstallWorks) = true
            rw [hp]
            rfl
          have hw : (envAfter env fs).isWindows = env.isWindows := by rw [henv]
          have hbs : (envAfter env fs).buildSucceeds = env.buildSucceeds := by
            rw [henv]
          have hcl : (envAfter env fs).clean = env.clean := by rw [henv]
          cases hb : env.buildSucceeds with
          | true =>
              have h1 := main_run_buildOk env fs hentry hd1 hb
              have hfs1 : (main_run env fs).fs =
                  buildOutputs (clean_build_dirs env.clean fs).1 env.isWindows := by
                rw [h1]
              have hpres1 : distHasBinary (main_run env fs).fs env.isWindows
                  = true := by
                rw [hfs1]
                exact distHasBinary_buildOutputs _ _
              have hent2 : fsHasTop (main_run env fs).fs entryPoint = true := by
                rw [hfs1]
                exact fsHasTop_buildOutputs _ _ _
                  (fsHasTop_clean env.clean fs entryPoint (by decide) (by decide)
                    (by decide) hentry)
              have h2 := main_run_buildOk (envAfter env fs) ((main_run env fs).fs)
                hent2 hd2 (by rw [hbs]; exact hb)
              have hfs2 : (main_run (envAfter env fs) ((main_run env fs).fs)).fs =
                  buildOutputs (clean_build_dirs (envAfter env fs).clean
                    ((main_run env fs).fs)).1 (envAfter env fs).isWindows := by
                rw [h2]
              have hpres2 : distHasBinary
                  (main_run (envAfter env fs) ((main_run env fs).fs)).fs
                  env.isWindows = true := by
                rw [hfs2, hw]
                exact distHasBinary_buildOutputs _ _
              rw [hpres1, hpres2]
          | false =>
              have h1 := main_run_buildFail env fs hentry hd1 hb
              have hfs1 : (main_run env fs).fs =
                  (clean_build_dirs env.clean fs).1 := by
                rw [h1]
              have hent2 : fsHasTop (main_run env fs).fs entryPoint = true := by
                rw [hfs1]
                exact fsHasTop_clean env.clean fs entryPoint (by decide)
                  (by decide) (by decide) hentry
              have h2 := main_run_buildFail (envAfter env fs)
                ((main_run env fs).fs) hent2 hd2 (by rw [hbs]; exact hb)
              have hfs2 : (main_run (envAfter env fs) ((main_run env fs).fs)).fs =
                  (clean_build_dirs (envAfter env fs).clean
                    ((main_run env fs).fs)).1 := by
                rw [h2]
              rw [hfs2, hcl, hfs1, clean_build_dirs_idem]

end MTH5Builder
